import Mathlib

/-!
Verification of the grade resource of the impact_evaluator_api repository:
the grade service (`src/services/grade_service.py`), the grade routes
(`src/routes/grade_routes.py`), and the cursor-based pagination engine they
delegate to.

Conventions of the embedding:
* Python dictionaries holding documents become association lists
  (`DocMap`) whose update/delete operations mirror Python dict semantics
  (assignment keeps the key position, deletion removes the key).
* The exception taxonomy `HTTPBadRequest` / `HTTPForbidden` /
  `HTTPNotFound` / `HTTPInternalServerError` from `api_utils` becomes the
  inductive `Exc` (constructors `badRequest`, `forbidden`, `notFound`,
  `internal`); exceptions that are none of these are `Exc.other`.
  Raising becomes returning `Except.error`.
* The MongoDB adapter (`MongoIO`) is an external collaborator; calls into
  it are passed to each service operation as an explicit outcome
  (an `Except Exc` value or function), so that both the normal store
  behaviour and arbitrary adapter failures can be analysed.
-/

/-- Audit record attached to every created document.  Produced by
`create_flask_breadcrumb`; the service copies it verbatim into the
document's `created` field. -/
structure Breadcrumb where
  at_time : String
  by_user : String
  from_ip : String
  correlation_id : String
deriving DecidableEq, Repr

/-- Field values of a document map.  `oid` is a store-assigned identifier,
`crumb` an audit record. -/
inductive Value where
  | str (s : String)
  | num (n : Nat)
  | oid (i : Nat)
  | crumb (b : Breadcrumb)
deriving DecidableEq, Repr

/-- A document: a mapping of field name to value, in insertion order,
mirroring a Python dict. -/
abbrev DocMap : Type := List (String × Value)

/-- Lookup of a field in a document (Python `data[k]` / `k in data`). -/
def lookupField : DocMap → String → Option Value
  | [], _ => none
  | (k', v) :: rest, k => if k' = k then some v else lookupField rest k

/-- Python `k in data`. -/
def hasField (m : DocMap) (k : String) : Bool :=
  (lookupField m k).isSome

/-- Python `del data[k]`: removes the key, leaving the other entries in
place. -/
def eraseField : DocMap → String → DocMap
  | [], _ => []
  | (k', v) :: rest, k =>
    if k' = k then eraseField rest k else (k', v) :: eraseField rest k

/-- Python `data[k] = v`: replaces the value at an existing key in place,
or appends the new key at the end. -/
def setField : DocMap → String → Value → DocMap
  | [], k, v => [(k, v)]
  | (k', v') :: rest, k, v =>
    if k' = k then (k, v) :: rest else (k', v') :: setField rest k v

/-- The exception taxonomy of `api_utils.flask_utils.exceptions`, plus
`other` for exceptions outside it.  Each carries its message (`str(e)`). -/
inductive Exc where
  | badRequest (msg : String)
  | forbidden (msg : String)
  | notFound (msg : String)
  | internal (msg : String)
  | other (msg : String)
deriving DecidableEq, Repr

/-- Python `str(e)` for an exception. -/
def excMessage : Exc → String
  | .badRequest m => m
  | .forbidden m => m
  | .notFound m => m
  | .internal m => m
  | .other m => m

/-- Modelled from the spec: the Document Store Adapter (`MongoIO` from
`api_utils`, not part of this repository) keeps one collection of
documents keyed by identifier; `create(collection, doc) -> id` assigns a
fresh identifier, stores it in the document's `_id` field and persists
the document. -/
structure MongoStore where
  next_id : Nat
  docs : List (Nat × DocMap)
deriving Repr

/-- Modelled from the spec: `create_document` of the external adapter —
the store assigns the identifier and records it in the `_id` field. -/
def create_document (s : MongoStore) (d : DocMap) : Nat × MongoStore :=
  (s.next_id,
   { next_id := s.next_id + 1,
     docs := (s.next_id, setField d "_id" (Value.oid s.next_id)) :: s.docs })

/-- Modelled from the spec: `get_document` of the external adapter —
`get(collection, id) -> doc | null`. -/
def get_document (s : MongoStore) (i : Nat) : Option DocMap :=
  (s.docs.find? (fun p => p.1 == i)).map (fun p => p.2)

/-- The data transformation `create_grade` applies to its `data` argument
before persisting (grade_service.py lines 69-76): `del data['_id']` when
present, then `data['created'] = breadcrumb`.  Python mutates the caller's
dict in place, so this is also the value of the caller's dict after the
call. -/
def create_grade_data (data : DocMap) (breadcrumb : Breadcrumb) : DocMap :=
  setField (eraseField data "_id") "created" (Value.crumb breadcrumb)

namespace GradeService

/-- `GradeService.create_grade` (grade_service.py lines 54-88).
`_check_permission(token, 'create')` is a no-op in the source (`pass`).
The adapter call `mongo.create_document` is abstracted as
`adapter_create`, applied to the transformed data.  The catch structure is
the source's: `except HTTPForbidden: raise` then `except Exception as e:
raise HTTPInternalServerError(f"Failed to create grade: ...str(e)")`. -/
def create_grade (data : DocMap) (breadcrumb : Breadcrumb)
    (adapter_create : DocMap → Except Exc (Nat × MongoStore)) :
    Except Exc (Nat × MongoStore) :=
  match adapter_create (create_grade_data data breadcrumb) with
  | .ok r => .ok r
  | .error (Exc.forbidden m) => .error (.forbidden m)
  | .error e => .error (.internal ("Failed to create grade: " ++ excMessage e))

/-- `GradeService.get_grade` (grade_service.py lines 141-171).
`fetch` is the outcome of `mongo.get_document(...)`: `some`/`none` on
success, `error` when the adapter raises.  The catch structure is the
source's: `except HTTPNotFound: raise` then a generic wrap. -/
def get_grade (grade_id : Nat) (fetch : Except Exc (Option DocMap)) :
    Except Exc DocMap :=
  match (match fetch with
    | .error e => Except.error e
    | .ok (some doc) => Except.ok doc
    | .ok none =>
      Except.error (Exc.notFound ("Grade " ++ toString grade_id ++ " not found"))) with
  | .ok d => .ok d
  | .error (Exc.notFound m) => .error (.notFound m)
  | .error _ => .error (.internal ("Failed to retrieve grade " ++ toString grade_id))

end GradeService

/-- `route_create_grade`: the POST handler in grade_routes.py lines 28-53:
`create_grade` on the request body, then `get_grade` on the returned id,
then `jsonify(grade), 201`. -/
def route_create_grade (data : DocMap) (breadcrumb : Breadcrumb)
    (store : MongoStore) : Except Exc (DocMap × Nat) :=
  match GradeService.create_grade data breadcrumb
      (fun d => Except.ok (create_document store d)) with
  | .error e => .error e
  | .ok (gid, store2) =>
    match GradeService.get_grade gid (Except.ok (get_document store2 gid)) with
    | .error e => .error e
    | .ok doc => .ok (doc, 201)

/-! The pagination engine.

`GradeService.get_grades` delegates to `execute_infinite_scroll_query`
from `api_utils.mongo_utils`, which is not part of this repository; it is
modelled here from the spec (sections 4.1 and 4.2).  For list queries a
grade document is abstracted as its identifier together with the values
of the three allow-listed sort fields; sort-field values are `Nat` since
only their relative order matters to the engine. -/

/-- A grade document as seen by the list query: its store identifier and
the values of the allow-listed sort fields. -/
structure GradeDoc where
  id : Nat
  name : Nat
  description : Nat
  created_at : Nat
deriving DecidableEq, Repr

/-- `ALLOWED_SORT_FIELDS` from grade_service.py line 14. -/
def ALLOWED_SORT_FIELDS : List String := ["name", "description", "created.at_time"]

/-- Value of the `sort_by` field of a document. -/
def sortVal (sort_by : String) (d : GradeDoc) : Nat :=
  if sort_by = "description" then d.description
  else if sort_by = "created.at_time" then d.created_at
  else d.name

/-- The sort key of a document: the `sort_by` value with the identifier as
deterministic tie-breaker (spec section 4.1). -/
def keyOf (sort_by : String) (d : GradeDoc) : Nat × Nat :=
  (sortVal sort_by d, d.id)

/-- Strict lexicographic order on sort keys. -/
def pairLt (a b : Nat × Nat) : Prop :=
  a.1 < b.1 ∨ (a.1 = b.1 ∧ a.2 < b.2)

/-- Reflexive lexicographic order on sort keys. -/
def pairLe (a b : Nat × Nat) : Prop :=
  a.1 < b.1 ∨ (a.1 = b.1 ∧ a.2 ≤ b.2)

instance (a b : Nat × Nat) : Decidable (pairLt a b) :=
  inferInstanceAs (Decidable (_ ∨ _))

instance (a b : Nat × Nat) : Decidable (pairLe a b) :=
  inferInstanceAs (Decidable (_ ∨ _))

/-- ASCII lower-casing of one character (Python `str.lower` on the
order parameter's characters). -/
def lowerChar (c : Char) : Char :=
  if 65 ≤ c.toNat ∧ c.toNat ≤ 90 then Char.ofNat (c.toNat + 32) else c

/-- ASCII lower-casing of a string (Python `str.lower`). -/
def lowerString (s : String) : String :=
  String.mk (s.data.map lowerChar)

/-- Whether the requested order is descending (case-insensitive,
spec section 4.1). -/
def isDesc (order : String) : Bool :=
  lowerString order == "desc"

/-- Spec section 4.1: an order parameter is valid when it is
`asc`/`desc`, case-insensitively. -/
def validOrder (order : String) : Bool :=
  lowerString order == "asc" || lowerString order == "desc"

/-- Strict document order of the query: `(sort_by value, id)` compared
lexicographically, reversed for descending order. -/
def docLt (sort_by order : String) (a b : GradeDoc) : Prop :=
  cond (isDesc order) (pairLt (keyOf sort_by b) (keyOf sort_by a))
    (pairLt (keyOf sort_by a) (keyOf sort_by b))

/-- Reflexive document order of the query. -/
def docLe (sort_by order : String) (a b : GradeDoc) : Prop :=
  cond (isDesc order) (pairLe (keyOf sort_by b) (keyOf sort_by a))
    (pairLe (keyOf sort_by a) (keyOf sort_by b))

instance (sort_by order : String) : DecidableRel (docLt sort_by order) :=
  fun a b => by
    unfold docLt
    cases isDesc order <;> simp only [cond_true, cond_false] <;> infer_instance

instance (sort_by order : String) : DecidableRel (docLe sort_by order) :=
  fun a b => by
    unfold docLe
    cases isDesc order <;> simp only [cond_true, cond_false] <;> infer_instance

instance (sort_by order : String) : IsTotal GradeDoc (docLe sort_by order) where
  total a b := by unfold docLe pairLe; cases isDesc order <;> simp <;> omega

instance (sort_by order : String) : IsTrans GradeDoc (docLe sort_by order) where
  trans a b c := by unfold docLe pairLe; cases isDesc order <;> simp <;> omega

/-- Modelled from the spec: the collection ordered by `(sort_by, id)` in
the requested direction (spec section 4.1 Execution). -/
def sortedDocs (sort_by order : String) (docs : List GradeDoc) : List GradeDoc :=
  List.insertionSort (docLe sort_by order) docs

/-- Modelled from the spec: clamp the limit silently to the closed range
[1, 100] (spec section 4.1). -/
def clampLimit (limit : Int) : Nat :=
  if limit < 1 then 1 else if 100 < limit then 100 else limit.toNat

/-- Modelled from the spec: cursor resolution and continuation predicate
(spec sections 4.1, 4.2 and 9).  The cursor is the raw identifier of the
last document of the previous page; the engine re-reads that document's
sort-key value with a fresh lookup and keeps the documents whose
`(sort_by value, id)` pair lies strictly beyond it in the requested
direction.  A cursor whose document is absent fails the page request with
a validation error (spec section 4.2). -/
def continuationDocs (sort_by order : String) (docs : List GradeDoc)
    (after_id : Option Nat) : Except Exc (List GradeDoc) :=
  match after_id with
  | none => .ok (sortedDocs sort_by order docs)
  | some cid =>
    match docs.find? (fun d => d.id == cid) with
    | none => .error (.badRequest ("Invalid after_id: " ++ toString cid))
    | some c =>
      .ok ((sortedDocs sort_by order docs).filter
        (fun d => decide (docLt sort_by order c d)))

/-- The result shape of a list query (spec section 4.1):
`{items, limit, has_more, next_cursor}`. -/
structure ScrollResult where
  items : List GradeDoc
  limit : Nat
  has_more : Bool
  next_cursor : Option Nat
deriving DecidableEq, Repr

instance {ε α : Type} [DecidableEq ε] [DecidableEq α] : DecidableEq (Except ε α) :=
  fun x y =>
    match x, y with
    | .ok a, .ok b =>
      if h : a = b then isTrue (by rw [h]) else isFalse (by intro hc; cases hc; exact h rfl)
    | .error a, .error b =>
      if h : a = b then isTrue (by rw [h]) else isFalse (by intro hc; cases hc; exact h rfl)
    | .ok _, .error _ => isFalse (by intro hc; cases hc)
    | .error _, .ok _ => isFalse (by intro hc; cases hc)

/-- Modelled from the spec: fetch `limit + 1` documents; if `limit + 1`
were returned, `has_more = true` and the extra document is discarded;
`next_cursor` is the identifier of the last returned document, or `null`
when `has_more` is false or the page is empty (spec section 4.1). -/
def buildScrollPage (lim : Nat) (rest : List GradeDoc) : ScrollResult :=
  let fetched := rest.take (lim + 1)
  let has_more := fetched.length == lim + 1
  let items := fetched.take lim
  { items := items
    limit := lim
    has_more := has_more
    next_cursor := if has_more then items.getLast?.map (fun d => d.id) else none }

/-- Modelled from the spec: `execute_infinite_scroll_query` from
`api_utils.mongo_utils`, which is not part of this repository (only its
caller `GradeService.get_grades` is).  Validates `sort_by` against the
allow-list and `order` against asc/desc (raising `HTTPBadRequest`,
identifying the invalid field), clamps the limit, applies the optional
name filter, resolves the cursor and returns one page (spec sections 4.1
and 4.2). -/
def execute_infinite_scroll_query (docs : List GradeDoc) (name : Option Nat)
    (after_id : Option Nat) (limit : Int) (sort_by order : String)
    (allowed_sort_fields : List String) : Except Exc ScrollResult :=
  if sort_by ∈ allowed_sort_fields then
    if validOrder order then
      let filtered := match name with
        | none => docs
        | some n => docs.filter (fun d => d.name == n)
      (continuationDocs sort_by order filtered after_id).map
        (buildScrollPage (clampLimit limit))
    else .error (.badRequest ("Invalid order: " ++ order))
  else .error (.badRequest ("Invalid sort_by field: " ++ sort_by))

namespace GradeService

/-- `GradeService.get_grades` (grade_service.py lines 91-138).
`_check_permission(token, 'read')` is a no-op in the source (`pass`).
`fetch_collection` is the outcome of
`mongo.get_collection(config.GRADE_COLLECTION_NAME)`: the collection's
documents on success, `error` when the adapter raises.  The catch
structure is the source's: `except HTTPBadRequest: raise` then
`except Exception: raise HTTPInternalServerError("Failed to retrieve
grades")`. -/
def get_grades (fetch_collection : Except Exc (List GradeDoc))
    (name after_id : Option Nat) (limit : Int) (sort_by order : String) :
    Except Exc ScrollResult :=
  match (match fetch_collection with
    | .error e => Except.error e
    | .ok docs =>
      execute_infinite_scroll_query docs name after_id limit sort_by order
        ALLOWED_SORT_FIELDS) with
  | .ok r => .ok r
  | .error (Exc.badRequest m) => .error (.badRequest m)
  | .error _ => .error (.internal "Failed to retrieve grades")

end GradeService

/-- Value of one decimal digit character. -/
def digitVal (c : Char) : Option Nat :=
  if 48 ≤ c.toNat ∧ c.toNat ≤ 57 then some (c.toNat - 48) else none

/-- Decimal value of a digit string, left to right. -/
def digitsValAux : List Char → Nat → Option Nat
  | [], acc => some acc
  | c :: rest, acc =>
    match digitVal c with
    | none => none
    | some d => digitsValAux rest (acc * 10 + d)

/-- Python `int(s)` as invoked by Werkzeug's `type=int` conversion: an
optional sign followed by one or more decimal digits; `none` when `s` is
not numeric (then `int` raises `ValueError`). -/
def strToInt? (s : String) : Option Int :=
  match s.data with
  | [] => none
  | '-' :: rest =>
    match rest with
    | [] => none
    | _ => (digitsValAux rest 0).map (fun n => -(n : Int))
  | '+' :: rest =>
    match rest with
    | [] => none
    | _ => (digitsValAux rest 0).map (fun n => (n : Int))
  | l => (digitsValAux l 0).map (fun n => (n : Int))

/-- Flask `request.args.get('limit', 10, type=int)` in grade_routes.py
line 85: Werkzeug applies the `type` callable to the raw value and
returns the default (10) when the parameter is missing or the conversion
raises, so a non-numeric limit silently becomes 10. -/
def parseLimitParam (v : Option String) : Int :=
  match v with
  | none => 10
  | some s =>
    match strToInt? s with
    | some n => n
    | none => 10

/-- The GET collection handler in grade_routes.py lines 55-102: parses the
query parameters (with their defaults) and delegates to
`GradeService.get_grades`; on success responds 200 with the page. -/
def route_get_grades (fetch_collection : Except Exc (List GradeDoc))
    (name_p after_p : Option Nat) (limit_p sort_p order_p : Option String) :
    Except Exc (ScrollResult × Nat) :=
  match GradeService.get_grades fetch_collection name_p after_p
      (parseLimitParam limit_p) (sort_p.getD "name") (order_p.getD "asc") with
  | .error e => .error e
  | .ok r => .ok (r, 200)

/-- The client-side iteration of spec section 8: call the list operation,
feed each page's `next_cursor` back as the next `after_id`, stop when
`has_more` is false.  `fuel` bounds the number of calls so the loop is
structurally recursive; the theorems show `docs.length + 1` calls always
suffice. -/
def scrollPages (docs : List GradeDoc) (limit : Int) (sort_by order : String) :
    Nat → Option Nat → Except Exc (List ScrollResult)
  | 0, _ => .error (.other "out of fuel")
  | fuel + 1, after =>
    match GradeService.get_grades (.ok docs) none after limit sort_by order with
    | .error e => .error e
    | .ok page =>
      if page.has_more then
        match scrollPages docs limit sort_by order fuel page.next_cursor with
        | .error e => .error e
        | .ok pages => .ok (page :: pages)
      else .ok [page]

/-! Association-list lemmas for the document-map semantics. -/

theorem lookupField_setField_self (m : DocMap) (k : String) (v : Value) :
    lookupField (setField m k v) k = some v := by
  induction m with
  | nil => simp [setField, lookupField]
  | cons p rest ih =>
    obtain ⟨k', v'⟩ := p
    by_cases h : k' = k
    · simp [setField, h, lookupField]
    · simp [setField, h, lookupField, ih]

theorem lookupField_setField_ne (m : DocMap) (k k' : String) (v : Value)
    (h : k' ≠ k) : lookupField (setField m k v) k' = lookupField m k' := by
  have hkk' : k ≠ k' := fun hc => h hc.symm
  induction m with
  | nil => simp [setField, lookupField, hkk']
  | cons p rest ih =>
    obtain ⟨a, w⟩ := p
    simp only [setField]
    split_ifs with ha
    · subst ha
      simp [lookupField, hkk']
    · by_cases ha' : a = k'
      · simp [lookupField, ha']
      · simp [lookupField, ha', ih]

theorem lookupField_eraseField_self (m : DocMap) (k : String) :
    lookupField (eraseField m k) k = none := by
  induction m with
  | nil => simp [eraseField, lookupField]
  | cons p rest ih =>
    obtain ⟨a, w⟩ := p
    by_cases ha : a = k
    · simp [eraseField, ha, ih]
    · simp [eraseField, ha, lookupField, ih]

theorem lookupField_eraseField_ne (m : DocMap) (k k' : String) (h : k' ≠ k) :
    lookupField (eraseField m k) k' = lookupField m k' := by
  have hkk' : k ≠ k' := fun hc => h hc.symm
  induction m with
  | nil => simp [eraseField]
  | cons p rest ih =>
    obtain ⟨a, w⟩ := p
    simp only [eraseField]
    split_ifs with ha
    · subst ha
      simp [lookupField, hkk', ih]
    · by_cases ha' : a = k'
      · simp [lookupField, ha']
      · simp [lookupField, ha', ih]

theorem hasField_iff_lookupField (m : DocMap) (k : String) :
    hasField m k = true ↔ ∃ v, lookupField m k = some v := by
  simp [hasField, Option.isSome_iff_exists]

theorem eraseField_of_lookup_none (m : DocMap) (k : String)
    (h : lookupField m k = none) : eraseField m k = m := by
  induction m with
  | nil => rfl
  | cons p rest ih =>
    obtain ⟨a, w⟩ := p
    simp only [lookupField] at h
    simp only [eraseField]
    by_cases ha : a = k
    · rw [if_pos ha] at h
      cases h
    · rw [if_neg ha] at h
      rw [if_neg ha, ih h]

theorem setField_of_lookup_some (m : DocMap) (k : String) (v : Value)
    (h : lookupField m k = some v) : setField m k v = m := by
  induction m with
  | nil =>
    rw [show lookupField [] k = none from rfl] at h
    cases h
  | cons p rest ih =>
    obtain ⟨a, w⟩ := p
    simp only [lookupField] at h
    simp only [setField]
    by_cases ha : a = k
    · rw [if_pos ha] at h
      injection h with hw
      rw [if_pos ha, ha, hw]
    · rw [if_neg ha] at h
      rw [if_neg ha, ih h]

/-- Converse direction for C8: a dict with no `_id` key whose `created`
entry already equals the breadcrumb is left value-identical by the
in-place delete and assignment. -/
theorem create_grade_data_unchanged (data : DocMap) (b : Breadcrumb)
    (hid : lookupField data "_id" = none)
    (hcr : lookupField data "created" = some (Value.crumb b)) :
    create_grade_data data b = data := by
  unfold create_grade_data
  rw [eraseField_of_lookup_none data "_id" hid,
    setField_of_lookup_some data "created" _ hcr]

/-- Reduction of `get_grades` when the collection fetch succeeds: the
engine runs and only its `HTTPBadRequest` is re-raised as such. -/
theorem get_grades_ok_fetch (docs : List GradeDoc) (nm after : Option Nat)
    (limit : Int) (sort_by order : String) :
    GradeService.get_grades (.ok docs) nm after limit sort_by order =
      match execute_infinite_scroll_query docs nm after limit sort_by order
          ALLOWED_SORT_FIELDS with
      | .ok r => .ok r
      | .error (Exc.badRequest m) => .error (.badRequest m)
      | .error _ => .error (.internal "Failed to retrieve grades") := rfl

/-- The document persisted by `create_grade` and the value of the caller's
data dict after the call: no client `_id`, `created` set to the
breadcrumb, all other fields untouched. -/
theorem create_grade_data_fields (data : DocMap) (b : Breadcrumb) :
    lookupField (create_grade_data data b) "_id" = none ∧
    lookupField (create_grade_data data b) "created" = some (Value.crumb b) ∧
    (∀ k, k ≠ "_id" → k ≠ "created" →
      lookupField (create_grade_data data b) k = lookupField data k) := by
  unfold create_grade_data
  refine ⟨?_, lookupField_setField_self _ _ _, ?_⟩
  · rw [lookupField_setField_ne _ _ _ _ (by decide)]
    exact lookupField_eraseField_self _ _
  · intro k h1 h2
    rw [lookupField_setField_ne _ _ _ _ h2, lookupField_eraseField_ne _ _ _ h1]

/-- Claim C4: `create_grade` strips any client-supplied `_id`, attaches the
supplied breadcrumb verbatim as the document's `created` field (overriding
any client-supplied `created`), persists the result through the adapter and
returns the store-assigned identifier; fetching that identifier from the
post-create store returns a document whose `created` equals the breadcrumb
supplied at creation time. -/
theorem claim_C4 (data : DocMap) (b : Breadcrumb) (store : MongoStore) :
    GradeService.create_grade data b (fun d => Except.ok (create_document store d)) =
      .ok (create_document store (create_grade_data data b)) ∧
    (create_document store (create_grade_data data b)).1 = store.next_id ∧
    get_document (create_document store (create_grade_data data b)).2
        store.next_id =
      some (setField (create_grade_data data b) "_id" (Value.oid store.next_id)) ∧
    lookupField (setField (create_grade_data data b) "_id" (Value.oid store.next_id))
        "created" = some (Value.crumb b) ∧
    lookupField (create_grade_data data b) "_id" = none ∧
    lookupField (create_grade_data data b) "created" = some (Value.crumb b) := by
  obtain ⟨h1, h2, _⟩ := create_grade_data_fields data b
  refine ⟨rfl, rfl, ?_, ?_, h1, h2⟩
  · simp [get_document, create_document, List.find?]
  · rw [lookupField_setField_ne _ _ _ _ (by decide)]
    exact h2

/-- Claim C5: `get_grade` returns the stored document when the store holds
one for the identifier, and fails with `HTTPNotFound` exactly when the
store returns no document for it. -/
theorem claim_C5 (store : MongoStore) (grade_id : Nat) :
    (∀ doc, get_document store grade_id = some doc →
      GradeService.get_grade grade_id (.ok (get_document store grade_id)) = .ok doc) ∧
    (get_document store grade_id = none →
      GradeService.get_grade grade_id (.ok (get_document store grade_id)) =
        .error (.notFound ("Grade " ++ toString grade_id ++ " not found"))) := by
  constructor
  · intro doc h
    rw [h]
    rfl
  · intro h
    rw [h]
    rfl

theorem claim_C5_witness :
    (get_document ⟨6, [(5, [("name", Value.str "a")])]⟩ 5 =
        some [("name", Value.str "a")] ∧
      GradeService.get_grade 5
          (.ok (get_document ⟨6, [(5, [("name", Value.str "a")])]⟩ 5)) =
        .ok [("name", Value.str "a")]) ∧
    (get_document ⟨6, [(5, [("name", Value.str "a")])]⟩ 9 = none ∧
      GradeService.get_grade 9
          (.ok (get_document ⟨6, [(5, [("name", Value.str "a")])]⟩ 9)) =
        .error (.notFound ("Grade " ++ toString 9 ++ " not found"))) :=
  ⟨⟨by decide,
    (claim_C5 ⟨6, [(5, [("name", Value.str "a")])]⟩ 5).1 _ (by decide)⟩,
   ⟨by decide,
    (claim_C5 ⟨6, [(5, [("name", Value.str "a")])]⟩ 9).2 (by decide)⟩⟩

/-- Claim C6, counterexample: the claim states that for any two distinct
underlying exceptions the caller-visible `InternalError` message is the
same; but `create_grade` embeds `str(e)` in its message
(grade_service.py line 88), so two adapter failures with different
messages yield different caller-visible `InternalError` messages. -/
theorem claim_C6_counterexample :
    GradeService.create_grade [] ⟨"t", "u", "i", "c"⟩
        (fun _ => Except.error (Exc.other "db timeout")) =
      .error (.internal "Failed to create grade: db timeout") ∧
    GradeService.create_grade [] ⟨"t", "u", "i", "c"⟩
        (fun _ => Except.error (Exc.other "disk full")) =
      .error (.internal "Failed to create grade: disk full") ∧
    ("Failed to create grade: db timeout" : String) ≠
      "Failed to create grade: disk full" :=
  ⟨rfl, rfl, by decide⟩

/-- Claim C6, amended: for `get_grades` and `get_grade` the `InternalError`
raised on an adapter or unexpected failure carries a fixed generic message
independent of the underlying exception (`get_grade`'s names only the
requested identifier); `create_grade`'s `InternalError` message instead
embeds the underlying exception's own message. -/
theorem claim_C6_amended (nm after : Option Nat) (limit : Int)
    (sort_by order : String) (grade_id : Nat) (data : DocMap) (b : Breadcrumb)
    (e1 e2 : Exc)
    (h1 : ∀ m, e1 ≠ Exc.badRequest m) (h2 : ∀ m, e2 ≠ Exc.badRequest m)
    (h3 : ∀ m, e1 ≠ Exc.notFound m) (h4 : ∀ m, e2 ≠ Exc.notFound m)
    (h5 : ∀ m, e1 ≠ Exc.forbidden m) :
    GradeService.get_grades (.error e1) nm after limit sort_by order =
      .error (.internal "Failed to retrieve grades") ∧
    GradeService.get_grades (.error e2) nm after limit sort_by order =
      .error (.internal "Failed to retrieve grades") ∧
    GradeService.get_grade grade_id (.error e1) =
      .error (.internal ("Failed to retrieve grade " ++ toString grade_id)) ∧
    GradeService.get_grade grade_id (.error e2) =
      .error (.internal ("Failed to retrieve grade " ++ toString grade_id)) ∧
    GradeService.create_grade data b (fun _ => Except.error e1) =
      .error (.internal ("Failed to create grade: " ++ excMessage e1)) := by
  refine ⟨?_, ?_, ?_, ?_, ?_⟩
  · cases e1 with
    | badRequest m => exact absurd rfl (h1 m)
    | forbidden m => rfl
    | notFound m => rfl
    | internal m => rfl
    | other m => rfl
  · cases e2 with
    | badRequest m => exact absurd rfl (h2 m)
    | forbidden m => rfl
    | notFound m => rfl
    | internal m => rfl
    | other m => rfl
  · cases e1 with
    | notFound m => exact absurd rfl (h3 m)
    | badRequest m => rfl
    | forbidden m => rfl
    | internal m => rfl
    | other m => rfl
  · cases e2 with
    | notFound m => exact absurd rfl (h4 m)
    | badRequest m => rfl
    | forbidden m => rfl
    | internal m => rfl
    | other m => rfl
  · cases e1 with
    | forbidden m => exact absurd rfl (h5 m)
    | badRequest m => rfl
    | notFound m => rfl
    | internal m => rfl
    | other m => rfl

theorem claim_C6_amended_witness :
    (∀ m, Exc.other "A" ≠ Exc.badRequest m) ∧
    (∀ m, Exc.other "B" ≠ Exc.badRequest m) ∧
    (∀ m, Exc.other "A" ≠ Exc.notFound m) ∧
    (∀ m, Exc.other "B" ≠ Exc.notFound m) ∧
    (∀ m, Exc.other "A" ≠ Exc.forbidden m) ∧
    (GradeService.get_grades (.error (Exc.other "A")) none none 10 "name" "asc" =
        .error (.internal "Failed to retrieve grades") ∧
      GradeService.get_grades (.error (Exc.other "B")) none none 10 "name" "asc" =
        .error (.internal "Failed to retrieve grades") ∧
      GradeService.get_grade 1 (.error (Exc.other "A")) =
        .error (.internal ("Failed to retrieve grade " ++ toString 1)) ∧
      GradeService.get_grade 1 (.error (Exc.other "B")) =
        .error (.internal ("Failed to retrieve grade " ++ toString 1)) ∧
      GradeService.create_grade [] ⟨"t", "u", "i", "c"⟩
          (fun _ => Except.error (Exc.other "A")) =
        .error (.internal ("Failed to create grade: " ++ excMessage (Exc.other "A")))) :=
  ⟨fun m h => (by cases h), fun m h => (by cases h), fun m h => (by cases h),
   fun m h => (by cases h), fun m h => (by cases h),
   claim_C6_amended none none 10 "name" "asc" 1 [] ⟨"t", "u", "i", "c"⟩
     (Exc.other "A") (Exc.other "B")
     (fun m h => (by cases h)) (fun m h => (by cases h)) (fun m h => (by cases h))
     (fun m h => (by cases h)) (fun m h => (by cases h))⟩

/-- Claim C7: a `ValidationError` detected inside the list operation, the
`NotFoundError` detected inside the get operation, and a `ForbiddenError`
surfacing inside the create operation each propagate unchanged through the
service boundary, while a non-domain exception is caught in every
operation and re-raised as an `InternalError`. -/
theorem claim_C7 (docs : List GradeDoc) (nm after : Option Nat) (limit : Int)
    (sort_by order : String) (grade_id : Nat) (data : DocMap) (b : Breadcrumb)
    (msg m : String)
    (hval : execute_infinite_scroll_query docs nm after limit sort_by order
      ALLOWED_SORT_FIELDS = .error (.badRequest msg)) :
    GradeService.get_grades (.ok docs) nm after limit sort_by order =
      .error (.badRequest msg) ∧
    GradeService.get_grade grade_id (.ok none) =
      .error (.notFound ("Grade " ++ toString grade_id ++ " not found")) ∧
    GradeService.create_grade data b (fun _ => Except.error (.forbidden m)) =
      .error (.forbidden m) ∧
    GradeService.create_grade data b (fun _ => Except.error (.other m)) =
      .error (.internal ("Failed to create grade: " ++ m)) ∧
    GradeService.get_grades (.error (.other m)) nm after limit sort_by order =
      .error (.internal "Failed to retrieve grades") ∧
    GradeService.get_grade grade_id (.error (.other m)) =
      .error (.internal ("Failed to retrieve grade " ++ toString grade_id)) := by
  refine ⟨?_, rfl, rfl, rfl, rfl, rfl⟩
  rw [get_grades_ok_fetch, hval]

theorem claim_C7_witness :
    execute_infinite_scroll_query [] none none 10 "bogus" "asc"
        ALLOWED_SORT_FIELDS =
      .error (.badRequest ("Invalid sort_by field: " ++ "bogus")) ∧
    (GradeService.get_grades (.ok []) none none 10 "bogus" "asc" =
        .error (.badRequest ("Invalid sort_by field: " ++ "bogus")) ∧
      GradeService.get_grade 7 (.ok none) =
        .error (.notFound ("Grade " ++ toString 7 ++ " not found")) ∧
      GradeService.create_grade [] ⟨"t", "u", "i", "c"⟩
          (fun _ => Except.error (.forbidden "no")) = .error (.forbidden "no") ∧
      GradeService.create_grade [] ⟨"t", "u", "i", "c"⟩
          (fun _ => Except.error (.other "no")) =
        .error (.internal ("Failed to create grade: " ++ "no")) ∧
      GradeService.get_grades (.error (.other "no")) none none 10 "bogus" "asc" =
        .error (.internal "Failed to retrieve grades") ∧
      GradeService.get_grade 7 (.error (.other "no")) =
        .error (.internal ("Failed to retrieve grade " ++ toString 7))) :=
  ⟨by decide,
   claim_C7 [] none none 10 "bogus" "asc" 7 [] ⟨"t", "u", "i", "c"⟩ _ "no"
     (by decide)⟩

/-- Claim C8, counterexample: the claim concludes that the caller's
argument is never left unchanged by `create_grade`; but when the input
dict has no `_id` key and its `created` entry already equals the supplied
breadcrumb, deleting `_id` is a no-op and the `created` assignment
rewrites the same value, so the caller's dict is unchanged. -/
theorem claim_C8_counterexample :
    create_grade_data [("created", Value.crumb ⟨"t", "u", "i", "c"⟩)]
        ⟨"t", "u", "i", "c"⟩ =
      [("created", Value.crumb ⟨"t", "u", "i", "c"⟩)] := by decide

/-- Claim C8, amended: `create_grade` mutates the caller's dictionary in
place — any `_id` key is deleted and `created` is assigned the supplied
breadcrumb before persistence, other fields untouched — and the caller's
argument is changed exactly when it had an `_id` key or its `created`
value was not already the breadcrumb. -/
theorem claim_C8_amended (data : DocMap) (b : Breadcrumb) :
    lookupField (create_grade_data data b) "_id" = none ∧
    lookupField (create_grade_data data b) "created" = some (Value.crumb b) ∧
    (∀ k, k ≠ "_id" → k ≠ "created" →
      lookupField (create_grade_data data b) k = lookupField data k) ∧
    (create_grade_data data b ≠ data ↔
      (hasField data "_id" = true ∨
        lookupField data "created" ≠ some (Value.crumb b))) := by
  obtain ⟨h1, h2, h3⟩ := create_grade_data_fields data b
  refine ⟨h1, h2, h3, ⟨?_, ?_⟩⟩
  · intro hne
    by_contra hcond
    rw [not_or, not_ne_iff] at hcond
    obtain ⟨hid, hcr⟩ := hcond
    have hid' : lookupField data "_id" = none := by
      rcases hx : lookupField data "_id" with _ | v
      · rfl
      · exact absurd ((hasField_iff_lookupField data "_id").mpr ⟨v, hx⟩) hid
    exact hne (create_grade_data_unchanged data b hid' hcr)
  · intro h heq
    rcases h with h | h
    · obtain ⟨v, hv⟩ := (hasField_iff_lookupField data "_id").mp h
      rw [heq] at h1
      rw [h1] at hv
      cases hv
    · rw [heq] at h2
      exact h h2

theorem claim_C8_amended_witness :
    (lookupField (create_grade_data [("_id", Value.oid 7)] ⟨"t", "u", "i", "c"⟩)
        "_id" = none ∧
      lookupField (create_grade_data [("_id", Value.oid 7)] ⟨"t", "u", "i", "c"⟩)
        "created" = some (Value.crumb ⟨"t", "u", "i", "c"⟩) ∧
      ("name" ≠ "_id" ∧ "name" ≠ "created" ∧
        lookupField (create_grade_data [("_id", Value.oid 7)] ⟨"t", "u", "i", "c"⟩)
          "name" = lookupField [("_id", Value.oid 7)] "name") ∧
      (hasField [("_id", Value.oid 7)] "_id" = true ∧
        create_grade_data [("_id", Value.oid 7)] ⟨"t", "u", "i", "c"⟩ ≠
          [("_id", Value.oid 7)])) ∧
    create_grade_data [("created", Value.crumb ⟨"t", "u", "i", "c"⟩)]
        ⟨"t", "u", "i", "c"⟩ =
      [("created", Value.crumb ⟨"t", "u", "i", "c"⟩)] :=
  ⟨⟨(claim_C8_amended [("_id", Value.oid 7)] ⟨"t", "u", "i", "c"⟩).1,
    (claim_C8_amended [("_id", Value.oid 7)] ⟨"t", "u", "i", "c"⟩).2.1,
    ⟨by decide, by decide,
     (claim_C8_amended [("_id", Value.oid 7)] ⟨"t", "u", "i", "c"⟩).2.2.1
       "name" (by decide) (by decide)⟩,
    ⟨by decide,
     (claim_C8_amended [("_id", Value.oid 7)] ⟨"t", "u", "i", "c"⟩).2.2.2.mpr
       (Or.inl (by decide))⟩⟩,
   by
    by_contra hne
    exact absurd
      ((claim_C8_amended [("created", Value.crumb ⟨"t", "u", "i", "c"⟩)]
        ⟨"t", "u", "i", "c"⟩).2.2.2.mp hne)
      (by decide)⟩

/-- Claim C9: the list operation surfaces only `HTTPBadRequest` or the
generic `HTTPInternalServerError` to its caller; any other exception
arising inside it — an `HTTPForbidden` or `HTTPNotFound` included — is
converted into `HTTPInternalServerError` before reaching the caller. -/
theorem claim_C9 (fetch : Except Exc (List GradeDoc)) (nm after : Option Nat)
    (limit : Int) (sort_by order : String) (e : Exc)
    (h : GradeService.get_grades fetch nm after limit sort_by order = .error e) :
    ((∃ m, e = Exc.badRequest m) ∨ e = Exc.internal "Failed to retrieve grades") ∧
    (∀ m, GradeService.get_grades (.error (.forbidden m)) nm after limit sort_by
        order = .error (.internal "Failed to retrieve grades")) ∧
    (∀ m, GradeService.get_grades (.error (.notFound m)) nm after limit sort_by
        order = .error (.internal "Failed to retrieve grades")) := by
  refine ⟨?_, fun m => rfl, fun m => rfl⟩
  rcases fetch with e' | docs
  · cases e' with
    | badRequest m =>
      have h' : (Except.error (Exc.badRequest m) : Except Exc ScrollResult) =
          Except.error e := h
      cases h'
      exact Or.inl ⟨m, rfl⟩
    | forbidden m =>
      have h' : (Except.error (Exc.internal "Failed to retrieve grades") :
          Except Exc ScrollResult) = Except.error e := h
      cases h'
      exact Or.inr rfl
    | notFound m =>
      have h' : (Except.error (Exc.internal "Failed to retrieve grades") :
          Except Exc ScrollResult) = Except.error e := h
      cases h'
      exact Or.inr rfl
    | internal m =>
      have h' : (Except.error (Exc.internal "Failed to retrieve grades") :
          Except Exc ScrollResult) = Except.error e := h
      cases h'
      exact Or.inr rfl
    | other m =>
      have h' : (Except.error (Exc.internal "Failed to retrieve grades") :
          Except Exc ScrollResult) = Except.error e := h
      cases h'
      exact Or.inr rfl
  · rw [get_grades_ok_fetch] at h
    rcases hq : execute_infinite_scroll_query docs nm after limit sort_by order
        ALLOWED_SORT_FIELDS with e'' | p
    · rw [hq] at h
      cases e'' with
      | badRequest m =>
        have h' : (Except.error (Exc.badRequest m) : Except Exc ScrollResult) =
            Except.error e := h
        cases h'
        exact Or.inl ⟨m, rfl⟩
      | forbidden m =>
        have h' : (Except.error (Exc.internal "Failed to retrieve grades") :
            Except Exc ScrollResult) = Except.error e := h
        cases h'
        exact Or.inr rfl
      | notFound m =>
        have h' : (Except.error (Exc.internal "Failed to retrieve grades") :
            Except Exc ScrollResult) = Except.error e := h
        cases h'
        exact Or.inr rfl
      | internal m =>
        have h' : (Except.error (Exc.internal "Failed to retrieve grades") :
            Except Exc ScrollResult) = Except.error e := h
        cases h'
        exact Or.inr rfl
      | other m =>
        have h' : (Except.error (Exc.internal "Failed to retrieve grades") :
            Except Exc ScrollResult) = Except.error e := h
        cases h'
        exact Or.inr rfl
    · rw [hq] at h
      exact Except.noConfusion h

theorem claim_C9_witness :
    GradeService.get_grades (.error (.other "boom")) none none 10 "name" "asc" =
      .error (Exc.internal "Failed to retrieve grades") ∧
    (((∃ m, Exc.internal "Failed to retrieve grades" = Exc.badRequest m) ∨
        Exc.internal "Failed to retrieve grades" =
          Exc.internal "Failed to retrieve grades") ∧
      (∀ m, GradeService.get_grades (.error (.forbidden m)) none none 10 "name"
          "asc" = .error (.internal "Failed to retrieve grades")) ∧
      (∀ m, GradeService.get_grades (.error (.notFound m)) none none 10 "name"
          "asc" = .error (.internal "Failed to retrieve grades"))) :=
  ⟨rfl, claim_C9 (.error (.other "boom")) none none 10 "name" "asc" _ rfl⟩

/-- Claim C10: a successful POST responds 201 with exactly the document a
fresh get of the newly returned identifier yields — the stored state with
the store-assigned `_id` and the stamped `created`, not the raw request
body. -/
theorem claim_C10 (data : DocMap) (b : Breadcrumb) (store : MongoStore) :
    route_create_grade data b store =
      .ok (setField (create_grade_data data b) "_id" (Value.oid store.next_id), 201) ∧
    GradeService.get_grade store.next_id
        (.ok (get_document (create_document store (create_grade_data data b)).2
          store.next_id)) =
      .ok (setField (create_grade_data data b) "_id" (Value.oid store.next_id)) ∧
    lookupField (setField (create_grade_data data b) "_id" (Value.oid store.next_id))
        "_id" = some (Value.oid store.next_id) ∧
    lookupField (setField (create_grade_data data b) "_id" (Value.oid store.next_id))
        "created" = some (Value.crumb b) := by
  have hget : get_document (create_document store (create_grade_data data b)).2
      store.next_id =
      some (setField (create_grade_data data b) "_id" (Value.oid store.next_id)) := by
    simp [get_document, create_document, List.find?]
  refine ⟨?_, ?_, lookupField_setField_self _ _ _, ?_⟩
  · unfold route_create_grade GradeService.create_grade
    simp only []
    rw [show (create_document store (create_grade_data data b)) =
        (store.next_id, (create_document store (create_grade_data data b)).2) from rfl]
    rw [hget]
    rfl
  · rw [hget]
    rfl
  · rw [lookupField_setField_ne _ _ _ _ (by decide)]
    exact (create_grade_data_fields data b).2.1

/-! Order-theoretic facts about the query's document order. -/

theorem docLt_asymm (sort_by order : String) (a b : GradeDoc)
    (h : docLt sort_by order a b) : ¬ docLt sort_by order b a := by
  revert h
  unfold docLt pairLt
  cases isDesc order <;> simp only [cond_true, cond_false] <;> omega

theorem docLt_irrefl (sort_by order : String) (a : GradeDoc) :
    ¬ docLt sort_by order a a := by
  unfold docLt pairLt
  cases isDesc order <;> simp only [cond_true, cond_false] <;> omega

theorem docLt_of_docLe_of_ne (sort_by order : String) (a b : GradeDoc)
    (hle : docLe sort_by order a b) (hne : a.id ≠ b.id) :
    docLt sort_by order a b := by
  have ha : (keyOf sort_by a).2 = a.id := rfl
  have hb : (keyOf sort_by b).2 = b.id := rfl
  revert hle
  unfold docLe docLt pairLt pairLe
  rw [ha, hb]
  cases isDesc order <;> simp only [cond_true, cond_false] <;> omega

/-- The sorted collection is strictly ordered once identifiers are
distinct: the `(sort_by value, id)` keys of distinct documents differ. -/
theorem pairwise_docLt_sortedDocs (sort_by order : String)
    (docs : List GradeDoc) (hnd : (docs.map GradeDoc.id).Nodup) :
    List.Pairwise (docLt sort_by order) (sortedDocs sort_by order docs) := by
  have hsorted : List.Pairwise (docLe sort_by order)
      (sortedDocs sort_by order docs) :=
    List.sorted_insertionSort (docLe sort_by order) docs
  have hperm : List.Perm (sortedDocs sort_by order docs) docs :=
    List.perm_insertionSort (docLe sort_by order) docs
  have hnd2 : ((sortedDocs sort_by order docs).map GradeDoc.id).Nodup :=
    ((hperm.map GradeDoc.id).nodup_iff).mpr hnd
  have hne : List.Pairwise (fun a b : GradeDoc => a.id ≠ b.id)
      (sortedDocs sort_by order docs) := List.pairwise_map.mp hnd2
  exact List.Pairwise.imp₂ (fun a b h1 h2 => docLt_of_docLe_of_ne _ _ a b h1 h2)
    hsorted hne

/-- With distinct identifiers, the cursor lookup resolves the cursor to
the unique document carrying that identifier. -/
theorem find_id_of_mem (docs : List GradeDoc) (c : GradeDoc)
    (hnd : (docs.map GradeDoc.id).Nodup) (hc : c ∈ docs) :
    docs.find? (fun d => d.id == c.id) = some c := by
  induction docs with
  | nil => cases hc
  | cons a tl ih =>
    rw [List.map_cons, List.nodup_cons] at hnd
    obtain ⟨hna, hnd'⟩ := hnd
    rcases List.mem_cons.mp hc with rfl | hmem
    · exact List.find?_cons_of_pos _ (by simp)
    · have hne : (a.id == c.id) = false := by
        simp only [beq_eq_false_iff_ne, ne_eq]
        intro he
        exact hna (by rw [he]; exact List.mem_map_of_mem GradeDoc.id hmem)
      rw [List.find?_cons_of_neg _ (by simp [hne])]
      exact ih hnd' hmem

/-- Filtering a strictly ordered list by "strictly after the last element
of the prefix" yields exactly the suffix. -/
theorem filter_after_split (sort_by order : String) (P R : List GradeDoc)
    (c : GradeDoc)
    (hp : List.Pairwise (docLt sort_by order) ((P ++ [c]) ++ R)) :
    ((P ++ [c]) ++ R).filter (fun d => decide (docLt sort_by order c d)) = R := by
  obtain ⟨hPc, hR, hcross⟩ := List.pairwise_append.mp hp
  obtain ⟨hP, hc, hPcross⟩ := List.pairwise_append.mp hPc
  rw [List.filter_append, List.filter_append]
  have h1 : P.filter (fun d => decide (docLt sort_by order c d)) = [] := by
    rw [List.filter_eq_nil_iff]
    intro x hx
    simp only [decide_eq_true_eq]
    exact docLt_asymm sort_by order x c (hPcross x hx c (by simp))
  have h2 : ([c].filter (fun d => decide (docLt sort_by order c d))) = [] := by
    rw [List.filter_eq_nil_iff]
    intro x hx
    rw [List.mem_singleton] at hx
    subst hx
    simp only [decide_eq_true_eq]
    exact docLt_irrefl sort_by order x
  have h3 : R.filter (fun d => decide (docLt sort_by order c d)) = R := by
    rw [List.filter_eq_self]
    intro x hx
    simp only [decide_eq_true_eq]
    exact hcross c (by simp) x hx
  rw [h1, h2, h3]
  rfl

/-! Shape of a page built by the engine. -/

theorem clampLimit_pos (limit : Int) : 1 ≤ clampLimit limit := by
  unfold clampLimit
  split_ifs <;> omega

theorem clampLimit_le (limit : Int) : clampLimit limit ≤ 100 := by
  unfold clampLimit
  split_ifs <;> omega

theorem buildScrollPage_limit (lim : Nat) (rest : List GradeDoc) :
    (buildScrollPage lim rest).limit = lim := rfl

theorem buildScrollPage_no_more (lim : Nat) (rest : List GradeDoc)
    (h : rest.length ≤ lim) :
    buildScrollPage lim rest =
      { items := rest, limit := lim, has_more := false, next_cursor := none } := by
  have h1 : rest.take (lim + 1) = rest := List.take_of_length_le (by omega)
  have h2 : rest.take lim = rest := List.take_of_length_le h
  have h3 : (rest.length == lim + 1) = false := by
    simp only [beq_eq_false_iff_ne, ne_eq]
    omega
  simp [buildScrollPage, h1, h2, h3]

theorem buildScrollPage_more (lim : Nat) (rest : List GradeDoc)
    (h : lim < rest.length) :
    buildScrollPage lim rest =
      { items := rest.take lim, limit := lim, has_more := true,
        next_cursor := (rest.take lim).getLast?.map (fun d => d.id) } := by
  have h1 : (rest.take (lim + 1)).length = lim + 1 := by
    rw [List.length_take]
    omega
  have h2 : (rest.take (lim + 1)).take lim = rest.take lim := by
    rw [List.take_take]
    congr 1
    omega
  have h3 : ((rest.take (lim + 1)).length == lim + 1) = true := by
    simp [h1]
  simp only [buildScrollPage, h2, h3]
  simp

/-- Reduction of the engine once `sort_by` and `order` pass validation. -/
theorem engine_valid_reduce (docs : List GradeDoc) (nm after : Option Nat)
    (limit : Int) (sort_by order : String)
    (hs : sort_by ∈ ALLOWED_SORT_FIELDS) (ho : validOrder order = true) :
    execute_infinite_scroll_query docs nm after limit sort_by order
        ALLOWED_SORT_FIELDS =
      (continuationDocs sort_by order
          (match nm with
            | none => docs
            | some n => docs.filter (fun d => d.name == n)) after).map
        (buildScrollPage (clampLimit limit)) := by
  unfold execute_infinite_scroll_query
  rw [if_pos hs, if_pos ho]

/-- The service's list operation succeeds with the engine's page whenever
the collection fetch succeeds and the cursor resolves. -/
theorem get_grades_ok_of_continuation (docs : List GradeDoc) (after : Option Nat)
    (limit : Int) (sort_by order : String) (rest : List GradeDoc)
    (hs : sort_by ∈ ALLOWED_SORT_FIELDS) (ho : validOrder order = true)
    (hc : continuationDocs sort_by order docs after = .ok rest) :
    GradeService.get_grades (.ok docs) none after limit sort_by order =
      .ok (buildScrollPage (clampLimit limit) rest) := by
  rw [get_grades_ok_fetch,
    engine_valid_reduce docs none after limit sort_by order hs ho]
  rw [show (match (none : Option Nat) with
      | none => docs
      | some n => docs.filter (fun d => d.name == n)) = docs from rfl]
  rw [hc]
  rfl

/-- Cursor resolution reduces to the continuation filter once the cursor
document is found. -/
theorem continuationDocs_some (sort_by order : String) (docs : List GradeDoc)
    (cid : Nat) (c : GradeDoc)
    (hf : docs.find? (fun d => d.id == cid) = some c) :
    continuationDocs sort_by order docs (some cid) =
      .ok ((sortedDocs sort_by order docs).filter
        (fun d => decide (docLt sort_by order c d))) := by
  show (match docs.find? (fun d => d.id == cid) with
    | none => Except.error (Exc.badRequest ("Invalid after_id: " ++ toString cid))
    | some c2 =>
      Except.ok ((sortedDocs sort_by order docs).filter
        (fun d => decide (docLt sort_by order c2 d)))) =
    Except.ok ((sortedDocs sort_by order docs).filter
      (fun d => decide (docLt sort_by order c d)))
  rw [hf]

/-- Resolving the cursor at the end of a consumed prefix of the sorted
collection yields exactly the remaining suffix. -/
theorem continuation_split (sort_by order : String) (docs P R : List GradeDoc)
    (hnd : (docs.map GradeDoc.id).Nodup)
    (hL : sortedDocs sort_by order docs = P ++ R) :
    continuationDocs sort_by order docs (P.getLast?.map (fun d => d.id)) =
      .ok R := by
  rcases List.eq_nil_or_concat P with rfl | ⟨P', c, rfl⟩
  · show continuationDocs sort_by order docs none = .ok R
    unfold continuationDocs
    rw [hL]
    rfl
  · rw [List.concat_eq_append] at hL
    have hcmem : c ∈ docs := by
      have h1 : c ∈ sortedDocs sort_by order docs := by
        rw [hL]
        simp
      exact ((List.perm_insertionSort (docLe sort_by order) docs).mem_iff).mp h1
    have hcur : (P'.concat c).getLast?.map (fun d => d.id) = some c.id := by
      rw [List.concat_eq_append, List.getLast?_concat]
      rfl
    rw [hcur,
      continuationDocs_some sort_by order docs c.id c
        (find_id_of_mem docs c hnd hcmem),
      hL,
      filter_after_split sort_by order P' R c
        (hL ▸ pairwise_docLt_sortedDocs sort_by order docs hnd)]

/-- One call of the iteration when the returned page is the last one. -/
theorem scrollPages_step_last (docs : List GradeDoc) (limit : Int)
    (sort_by order : String) (fuel : Nat) (after : Option Nat)
    (items : List GradeDoc) (lim : Nat) (cursor : Option Nat)
    (hpage : GradeService.get_grades (.ok docs) none after limit sort_by order =
      .ok ⟨items, lim, false, cursor⟩) :
    scrollPages docs limit sort_by order (fuel + 1) after =
      .ok [⟨items, lim, false, cursor⟩] := by
  unfold scrollPages
  rw [hpage]
  rfl

/-- One call of the iteration when the returned page has more to come. -/
theorem scrollPages_step_more (docs : List GradeDoc) (limit : Int)
    (sort_by order : String) (fuel : Nat) (after : Option Nat)
    (items : List GradeDoc) (lim : Nat) (cursor : Option Nat)
    (pages2 : List ScrollResult)
    (hpage : GradeService.get_grades (.ok docs) none after limit sort_by order =
      .ok ⟨items, lim, true, cursor⟩)
    (hrec : scrollPages docs limit sort_by order fuel cursor = .ok pages2) :
    scrollPages docs limit sort_by order (fuel + 1) after =
      .ok (⟨items, lim, true, cursor⟩ :: pages2) := by
  unfold scrollPages
  rw [hpage]
  show (match scrollPages docs limit sort_by order fuel cursor with
    | Except.error e => Except.error e
    | Except.ok pages3 => Except.ok (⟨items, lim, true, cursor⟩ :: pages3)) =
    Except.ok (⟨items, lim, true, cursor⟩ :: pages2)
  rw [hrec]

/-- One full client-side scroll consumes exactly the remaining suffix of
the sorted collection: `fuel` pages suffice for a suffix shorter than
`fuel`, the pages' items concatenate to the suffix, and the last page has
`has_more = false`. -/
theorem scrollPages_split (docs : List GradeDoc) (limit : Int)
    (sort_by order : String)
    (hnd : (docs.map GradeDoc.id).Nodup)
    (hs : sort_by ∈ ALLOWED_SORT_FIELDS) (ho : validOrder order = true) :
    ∀ fuel P R, sortedDocs sort_by order docs = P ++ R → R.length < fuel →
    ∃ pages,
      scrollPages docs limit sort_by order fuel
          (P.getLast?.map (fun d => d.id)) = .ok pages ∧
      (pages.map ScrollResult.items).flatten = R ∧
      ∃ q, pages.getLast? = some q ∧ q.has_more = false := by
  intro fuel
  induction fuel with
  | zero =>
    intro P R hL hf
    omega
  | succ fuel ih =>
    intro P R hL hf
    have hc := continuation_split sort_by order docs P R hnd hL
    have hget := get_grades_ok_of_continuation docs _ limit sort_by order R hs ho hc
    have hlim : 1 ≤ clampLimit limit := clampLimit_pos limit
    by_cases hlen : R.length ≤ clampLimit limit
    · rw [buildScrollPage_no_more _ _ hlen] at hget
      refine ⟨[⟨R, clampLimit limit, false, none⟩], ?_, by simp, ⟨_, rfl, rfl⟩⟩
      exact scrollPages_step_last docs limit sort_by order fuel _ R
        (clampLimit limit) none hget
    · push_neg at hlen
      rw [buildScrollPage_more _ _ hlen] at hget
      have htake_len : (R.take (clampLimit limit)).length = clampLimit limit := by
        rw [List.length_take]
        omega
      have htake_ne : R.take (clampLimit limit) ≠ [] := by
        intro hnil
        rw [hnil] at htake_len
        simp at htake_len
        omega
      have hcursor : (R.take (clampLimit limit)).getLast? =
          (P ++ R.take (clampLimit limit)).getLast? :=
        (List.getLast?_append_of_ne_nil _ htake_ne).symm
      have hL2 : sortedDocs sort_by order docs =
          (P ++ R.take (clampLimit limit)) ++ R.drop (clampLimit limit) := by
        rw [hL, List.append_assoc, List.take_append_drop]
      have hf2 : (R.drop (clampLimit limit)).length < fuel := by
        rw [List.length_drop]
        omega
      obtain ⟨pages, hrun, hjoin, q, hlast, hq⟩ :=
        ih (P ++ R.take (clampLimit limit)) (R.drop (clampLimit limit)) hL2 hf2
      have hpages_ne : pages ≠ [] := by
        intro hnil
        rw [hnil] at hlast
        cases hlast
      rw [← hcursor] at hrun
      have hstep := scrollPages_step_more docs limit sort_by order fuel
        (P.getLast?.map (fun d => d.id)) (R.take (clampLimit limit))
        (clampLimit limit)
        ((R.take (clampLimit limit)).getLast?.map (fun d => d.id)) pages hget hrun
      refine ⟨⟨R.take (clampLimit limit), clampLimit limit, true,
          (R.take (clampLimit limit)).getLast?.map (fun d => d.id)⟩ :: pages,
        hstep, ?_, ?_⟩
      · simp only [List.map_cons, List.flatten_cons, hjoin]
        exact List.take_append_drop _ R
      · refine ⟨q, ?_, hq⟩
        rw [← hlast]
        cases pages with
        | nil => exact absurd rfl hpages_ne
        | cons p rest => exact List.getLast?_cons_cons

/-- Claim C1: for every collection with distinct identifiers and every
valid `(sort_by, order, limit)` with no name filter, repeatedly calling
the list operation and feeding each page's `next_cursor` back as the next
`after_id` succeeds within `docs.length + 1` calls, yields every document
of the collection exactly once (the concatenated items are a permutation
of the collection) in the requested strict `(sort_by, id)` order, and the
iteration terminates with a final page whose `has_more` is false. -/
theorem claim_C1 (docs : List GradeDoc) (limit : Int) (sort_by order : String)
    (hnd : (docs.map GradeDoc.id).Nodup)
    (hs : sort_by ∈ ALLOWED_SORT_FIELDS) (ho : validOrder order = true)
    (h1 : 1 ≤ limit) (h2 : limit ≤ 100) :
    ∃ pages,
      scrollPages docs limit sort_by order (docs.length + 1) none = .ok pages ∧
      (pages.map ScrollResult.items).flatten = sortedDocs sort_by order docs ∧
      List.Perm ((pages.map ScrollResult.items).flatten) docs ∧
      List.Pairwise (docLt sort_by order) ((pages.map ScrollResult.items).flatten) ∧
      ∃ q, pages.getLast? = some q ∧ q.has_more = false := by
  have hlen : (sortedDocs sort_by order docs).length < docs.length + 1 := by
    unfold sortedDocs
    rw [(List.perm_insertionSort (docLe sort_by order) docs).length_eq]
    omega
  obtain ⟨pages, hrun, hjoin, hlast⟩ :=
    scrollPages_split docs limit sort_by order hnd hs ho (docs.length + 1) []
      (sortedDocs sort_by order docs) (by simp) hlen
  refine ⟨pages, hrun, hjoin, ?_, ?_, hlast⟩
  · rw [hjoin]
    exact List.perm_insertionSort (docLe sort_by order) docs
  · rw [hjoin]
    exact pairwise_docLt_sortedDocs sort_by order docs hnd

/-- Claim C3: a list request whose `sort_by` is not in the grade
resource's fixed allow-list (`name`, `description`, `created.at_time`)
fails with a `ValidationError` identifying the invalid field, regardless
of the collection's contents; any allow-listed `sort_by` (with a valid
order and no cursor) is accepted. -/
theorem claim_C3 (docs : List GradeDoc) (nm after : Option Nat) (limit : Int)
    (sort_by order : String) :
    (sort_by ∉ ALLOWED_SORT_FIELDS →
      GradeService.get_grades (.ok docs) nm after limit sort_by order =
        .error (.badRequest ("Invalid sort_by field: " ++ sort_by))) ∧
    (sort_by ∈ ALLOWED_SORT_FIELDS → validOrder order = true → after = none →
      ∃ page, GradeService.get_grades (.ok docs) nm after limit sort_by order =
        .ok page) := by
  constructor
  · intro hnot
    rw [get_grades_ok_fetch]
    unfold execute_infinite_scroll_query
    rw [if_neg hnot]
  · intro hs ho hafter
    subst hafter
    refine ⟨buildScrollPage (clampLimit limit)
      (sortedDocs sort_by order (match nm with
        | none => docs
        | some n => docs.filter (fun d => d.name == n))), ?_⟩
    rw [get_grades_ok_fetch,
      engine_valid_reduce docs nm none limit sort_by order hs ho]
    rfl

theorem claim_C3_witness :
    ("bogus" ∉ ALLOWED_SORT_FIELDS ∧
      GradeService.get_grades (.ok []) none none 10 "bogus" "asc" =
        .error (.badRequest ("Invalid sort_by field: " ++ "bogus"))) ∧
    ("name" ∈ ALLOWED_SORT_FIELDS ∧ validOrder "asc" = true ∧
      ∃ page, GradeService.get_grades (.ok []) none none 10 "name" "asc" =
        .ok page) :=
  ⟨⟨by decide, (claim_C3 [] none none 10 "bogus" "asc").1 (by decide)⟩,
   ⟨by decide, by decide,
    (claim_C3 [] none none 10 "name" "asc").2 (by decide) (by decide) rfl⟩⟩

/-- Claim C2, counterexample: the claim states that a non-numeric limit
value causes the request to fail with a `ValidationError` (HTTP 400); but
the route parses the parameter with Flask's `type=int` conversion, which
silently replaces a non-convertible value by the default, so the request
succeeds with 200 and `limit = 10`. -/
theorem claim_C2_counterexample :
    strToInt? "abc" = none ∧
    route_get_grades (.ok []) none none (some "abc") none none =
      .ok ({ items := [], limit := 10, has_more := false, next_cursor := none },
        200) := by
  exact ⟨rfl, rfl⟩

/-- Claim C2, amended: a limit value that parses as an integer below 1 or
above 100 is silently clamped into the closed range [1, 100]; a
non-numeric limit value does not fail the request — it is silently
replaced by the default 10 before clamping. -/
theorem claim_C2_amended (docs : List GradeDoc) (s : String) :
    (∀ n : Int, n < 1 → clampLimit n = 1) ∧
    (∀ n : Int, 100 < n → clampLimit n = 100) ∧
    (∀ n : Int, 1 ≤ n → n ≤ 100 → clampLimit n = n.toNat) ∧
    ∃ page, route_get_grades (.ok docs) none none (some s) none none =
        .ok (page, 200) ∧
      page.limit = clampLimit (parseLimitParam (some s)) ∧
      1 ≤ page.limit ∧ page.limit ≤ 100 ∧
      (strToInt? s = none → page.limit = 10) := by
  refine ⟨?_, ?_, ?_, ?_⟩
  · intro n hn
    unfold clampLimit
    rw [if_pos hn]
  · intro n hn
    unfold clampLimit
    rw [if_neg (by omega), if_pos hn]
  · intro n hn1 hn2
    unfold clampLimit
    rw [if_neg (by omega), if_neg (by omega)]
  · have hget := get_grades_ok_of_continuation docs none
      (parseLimitParam (some s)) "name" "asc" (sortedDocs "name" "asc" docs)
      (by decide) (by decide) rfl
    refine ⟨buildScrollPage (clampLimit (parseLimitParam (some s)))
        (sortedDocs "name" "asc" docs), ?_, rfl, clampLimit_pos _,
      clampLimit_le _, ?_⟩
    · unfold route_get_grades
      simp only [Option.getD_none]
      rw [hget]
    · intro hnone
      rw [buildScrollPage_limit]
      show clampLimit (match strToInt? s with | some n => n | none => 10) = 10
      rw [hnone]
      decide

theorem claim_C2_amended_witness :
    ((-5 : Int) < 1 ∧ clampLimit (-5) = 1) ∧
    ((100 : Int) < 777 ∧ clampLimit 777 = 100) ∧
    ((1 : Int) ≤ 42 ∧ (42 : Int) ≤ 100 ∧ clampLimit 42 = (42 : Int).toNat) ∧
    ∃ page, route_get_grades (.ok []) none none (some "abc") none none =
        .ok (page, 200) ∧
      page.limit = clampLimit (parseLimitParam (some "abc")) ∧
      1 ≤ page.limit ∧ page.limit ≤ 100 ∧
      (strToInt? "abc" = none → page.limit = 10) :=
  ⟨⟨by decide, (claim_C2_amended [] "abc").1 (-5) (by decide)⟩,
   ⟨by decide, (claim_C2_amended [] "abc").2.1 777 (by decide)⟩,
   ⟨by decide, by decide, (claim_C2_amended [] "abc").2.2.1 42 (by decide) (by decide)⟩,
   (claim_C2_amended [] "abc").2.2.2⟩

theorem claim_C1_witness :
    ((([⟨1, 30, 7, 7⟩, ⟨2, 10, 7, 7⟩, ⟨3, 20, 7, 7⟩] : List GradeDoc).map
        GradeDoc.id).Nodup ∧
      "name" ∈ ALLOWED_SORT_FIELDS ∧ validOrder "asc" = true ∧
      (1 : Int) ≤ 2 ∧ (2 : Int) ≤ 100) ∧
    ∃ pages,
      scrollPages [⟨1, 30, 7, 7⟩, ⟨2, 10, 7, 7⟩, ⟨3, 20, 7, 7⟩] 2 "name" "asc"
          (([⟨1, 30, 7, 7⟩, ⟨2, 10, 7, 7⟩, ⟨3, 20, 7, 7⟩] : List GradeDoc).length
            + 1) none = .ok pages ∧
      (pages.map ScrollResult.items).flatten =
        sortedDocs "name" "asc" [⟨1, 30, 7, 7⟩, ⟨2, 10, 7, 7⟩, ⟨3, 20, 7, 7⟩] ∧
      List.Perm ((pages.map ScrollResult.items).flatten)
        [⟨1, 30, 7, 7⟩, ⟨2, 10, 7, 7⟩, ⟨3, 20, 7, 7⟩] ∧
      List.Pairwise (docLt "name" "asc")
        ((pages.map ScrollResult.items).flatten) ∧
      ∃ q, pages.getLast? = some q ∧ q.has_more = false :=
  ⟨⟨by decide, by decide, by decide, by decide, by decide⟩,
   claim_C1 [⟨1, 30, 7, 7⟩, ⟨2, 10, 7, 7⟩, ⟨3, 20, 7, 7⟩] 2 "name" "asc"
     (by decide) (by decide) (by decide) (by decide) (by decide)⟩

-- Sanity checks of the embedding on concrete inputs (development aids).
example : lookupField (setField [("a", Value.num 1)] "a" (Value.num 2)) "a" =
    some (Value.num 2) := by decide
example : create_grade_data [("created", Value.crumb ⟨"t", "u", "i", "c"⟩)]
    ⟨"t", "u", "i", "c"⟩ = [("created", Value.crumb ⟨"t", "u", "i", "c"⟩)] := by decide
example : validOrder "asc" = true := by decide
example : validOrder "DESC" = true := by decide
example : validOrder "up" = false := by decide
example :
    execute_infinite_scroll_query
      [⟨1, 30, 0, 0⟩, ⟨2, 10, 0, 0⟩, ⟨3, 20, 0, 0⟩] none none 2 "name" "asc"
      ALLOWED_SORT_FIELDS =
    .ok { items := [⟨2, 10, 0, 0⟩, ⟨3, 20, 0, 0⟩], limit := 2, has_more := true,
          next_cursor := some 3 } := by decide
example :
    execute_infinite_scroll_query
      [⟨1, 30, 0, 0⟩, ⟨2, 10, 0, 0⟩, ⟨3, 20, 0, 0⟩] none (some 3) 2 "name" "asc"
      ALLOWED_SORT_FIELDS =
    .ok { items := [⟨1, 30, 0, 0⟩], limit := 2, has_more := false,
          next_cursor := none } := by decide
